import Mathlib

/-!
Verification of the gobgp REST management gateway (`api/rest.go`) and of the
spec-level BGP core (peer-session FSM, RIB engine, decision process) against
the repository's natural-language specification.

The definitions in the `Rest` namespace are a shallow embedding of
`src/api/rest.go`.  Go channels are modelled by allocation identifiers drawn
from a counter; the side effects of an HTTP handler (channel sends/receives,
HTTP error replies, body writes) are modelled as an explicit event trace.
The BGP core (FSM, RIB engine, decision process) is not part of the source
tree; it is modelled from the spec where a claim needs it.
-/

namespace Rest

/-- Request-type constants, from the `iota` block in `rest.go`
(`_ = iota; REQ_NEIGHBOR; ...`), so `REQ_NEIGHBOR = 1` through
`REQ_ADJ_RIB_LOCAL_BEST = 6`. -/
def REQ_NEIGHBOR : Nat := 1

def REQ_NEIGHBORS : Nat := 2

def REQ_ADJ_RIB_IN : Nat := 3

def REQ_ADJ_RIB_OUT : Nat := 4

def REQ_ADJ_RIB_LOCAL : Nat := 5

def REQ_ADJ_RIB_LOCAL_BEST : Nat := 6

def PARAM_REMOTE_PEER_ADDR : String := "remotePeerAddr"

def JSON_FORMATTED : Nat := 1

def JSON_UN_FORMATTED : Nat := 2

/-- `var JsonFormat int = JSON_FORMATTED` -/
def JsonFormat : Nat := JSON_FORMATTED

/-- `type RestRequest struct`: request type, remote address, response channel
(modelled by its allocation id), and an error field.  The Go channel value
`ResponseCh` is represented by `chanId`, the identifier handed out by
`make(chan RestResponse)` (see `NewRestRequest`). -/
structure RestRequest where
  requestType : Nat
  remoteAddr : String
  chanId : Nat
  err : Option String
deriving DecidableEq, Repr

/-- `func NewRestRequest(reqType int, remoteAddr string) *RestRequest`.
`make(chan RestResponse)` allocates a fresh channel: we model the allocator
state as a counter `c`; the new channel's id is `c` and the next free id is
`c + 1`. -/
def NewRestRequest (reqType : Nat) (remoteAddr : String) (c : Nat) :
    RestRequest × Nat :=
  ({ requestType := reqType
     remoteAddr := remoteAddr
     chanId := c
     err := none }, c + 1)

/-- The `RestResponse` interface together with its three concrete
implementations in `rest.go`: `RestResponseDefault` (an error field only),
`RestResponseNeighbor` (embeds the default struct, plus `RemoteAddr`,
`RemoteAs`, `NeighborState`, `UpdateCount`), and `RestResponseRib`
(embeds the default struct, plus `RemoteAddr`, `RemoteAs`, `RibInfo`). -/
inductive RestResponse where
  | default (responseErr : Option String)
  | neighbor (responseErr : Option String) (remoteAddr : String)
      (remoteAs : Nat) (neighborState : Nat) (updateCount : Int)
  | rib (responseErr : Option String) (remoteAddr : String)
      (remoteAs : Nat) (ribInfo : List String)
deriving DecidableEq, Repr

/-- `Err()` of each concrete response: returns the (embedded)
`ResponseErr` field. -/
def RestResponse.err : RestResponse → Option String
  | .default e => e
  | .neighbor e _ _ _ _ => e
  | .rib e _ _ _ => e

/-- Whether a response is a `*RestResponseNeighbor` (the type assertion
`resInf.(*RestResponseNeighbor)` in the handler succeeds exactly on these). -/
def RestResponse.isNeighborResp : RestResponse → Bool
  | .neighbor _ _ _ _ _ => true
  | _ => false

/-- Observable actions of an HTTP handler: sending a request on the BGP
server channel, receiving on a response channel, `http.Error` replies, and
`w.Write` of a response body. -/
inductive Event where
  | send (req : RestRequest)
  | recv (chanId : Nat)
  | httpError (msg : String) (code : Nat)
  | write (body : String)
deriving DecidableEq, Repr

def Event.isRecv : Event → Bool
  | .recv _ => true
  | _ => false

def Event.isSend : Event → Bool
  | .send _ => true
  | _ => false

/-- An event that delivers an HTTP reply to the requester: either an
`http.Error` or a body write. -/
def Event.isHttpReply : Event → Bool
  | .httpError _ _ => true
  | .write _ => true
  | _ => false

def statusInternalServerError : Nat := 500

def statusNotFound : Nat := 404

/-- Go's `http.StatusText`, modelled for the codes `rest.go` uses. -/
def statusText (code : Nat) : String :=
  if code = 404 then "Not Found"
  else if code = 500 then "Internal Server Error"
  else ""

/-- The error string built by
`fmt.Sprintf("Failed to perth json of neighbor state", remoteAddr)`:
the format string has no verb, so Go appends an `%!(EXTRA ...)` diagnostic. -/
def marshalErrStr (remoteAddr : String) : String :=
  "Failed to perth json of neighbor state" ++
    "%!(EXTRA string=" ++ remoteAddr ++ ")"

/-- `func (rs *RestServer) Neighbor(w http.ResponseWriter, r *http.Request)`.

Inputs: `params` models `mux.Vars(r)`; `resInf` is the value the BGP server
goroutine sends on the request's response channel; `marshalIndent` /
`marshalPlain` model `json.MarshalIndent` / `json.Marshal` (`none` = the
marshaller returned an error); `jsonFormat` is the global `JsonFormat`;
`c` is the channel-allocator counter.

Output: the handler's event trace, paired with `true` when the handler ran
to completion and `false` when it panicked (the unchecked type assertion
`resInf.(*RestResponseNeighbor)` on a non-neighbor response). -/
def Neighbor (params : List (String × String)) (resInf : RestResponse)
    (marshalIndent marshalPlain : RestResponse → Option String)
    (jsonFormat : Nat) (c : Nat) : List Event × Bool :=
  let lookup := params.lookup PARAM_REMOTE_PEER_ADDR
  let pre : List Event :=
    match lookup with
    | some _ => []
    | none => [.httpError "neighbor address is not specified"
                statusInternalServerError]
  let remoteAddr := lookup.getD ""
  let req := (NewRestRequest REQ_NEIGHBOR remoteAddr c).1
  let evts := pre ++ [.send req, .recv req.chanId]
  match resInf.err with
  | some e => (evts ++ [.httpError e statusInternalServerError], true)
  | none =>
    if resInf.isNeighborResp then
      let jns : Option String :=
        if jsonFormat = JSON_FORMATTED then marshalIndent resInf
        else if jsonFormat = JSON_UN_FORMATTED then marshalPlain resInf
        else some ""
      match jns with
      | some j => (evts ++ [.write j], true)
      | none => (evts ++ [.httpError (marshalErrStr remoteAddr)
                  statusInternalServerError], true)
    else (evts, false)

/-- `func NotFoundHandler(w http.ResponseWriter, r *http.Request)`:
unconditionally `http.Error(w, http.StatusText(http.StatusNotFound),
http.StatusNotFound)`. -/
def NotFoundHandler (_path : String) : List Event :=
  [.httpError (statusText statusNotFound) statusNotFound]

/-- Split a character list at every occurrence of `sep`
(String.splitOn for a one-character separator, written structurally). -/
def splitCharAux (sep : Char) (acc : List Char) : List Char → List String
  | [] => [String.mk acc.reverse]
  | ch :: rest =>
    if ch = sep then String.mk acc.reverse :: splitCharAux sep [] rest
    else splitCharAux sep (ch :: acc) rest

/-- The segments of a URL path (split at every `/`). -/
def splitPath (path : String) : List String :=
  splitCharAux '/' [] path.toList

/-- The gorilla/mux route installed by `Serve`:
`GET /v1/bgp/neighbor/{remotePeerAddr}` (the only uncommented route,
`BASE_VERSION + NEIGHBOR + "/" + PARAM_REMOTE_PEER_ADDR` as a template).
Returns the extracted path variable when the method and path match the
template; a `{var}` segment matches one non-empty path segment. -/
def muxMatch (method path : String) : Option String :=
  if method = "GET" then
    match splitPath path with
    | ["", "v1", "bgp", "neighbor", addr] =>
      if addr = "" then none else some addr
    | _ => none
  else none

/-- The router built by `Serve`: a matched request is dispatched to the
`Neighbor` handler with the extracted variable in `mux.Vars`; any request
matching no registered route goes to the installed `NotFoundHandler`. -/
def serve (method path : String) (resInf : RestResponse)
    (marshalIndent marshalPlain : RestResponse → Option String)
    (jsonFormat : Nat) (c : Nat) : List Event × Bool :=
  match muxMatch method path with
  | some addr =>
    Neighbor [(PARAM_REMOTE_PEER_ADDR, addr)] resInf
      marshalIndent marshalPlain jsonFormat c
  | none => (NotFoundHandler path, true)

/-- Modelled from the spec: a configured Peer's queryable state
("peer state: address, remote AS, FSM state, update counters", §6),
as held by the Server Coordinator. -/
structure PeerConf where
  remoteAddr : String
  remoteAs : Nat
  neighborState : Nat
  updateCount : Int
deriving DecidableEq, Repr

/-- Modelled from the spec: the Server Coordinator's answer to a
peer-state query (`REQ_NEIGHBOR`).  The coordinator side of the channel is
not in the source tree; per §6/§7 it answers every request exactly once,
with the peer's state when the peer-address key names a configured Peer and
with an explicit not-found error otherwise ("an unknown peer key yields an
explicit not-found error rather than hanging"). -/
def coordinatorRespond (peers : List PeerConf) (req : RestRequest) :
    RestResponse :=
  match peers.find? (fun p => p.remoteAddr == req.remoteAddr) with
  | some p =>
    .neighbor none p.remoteAddr p.remoteAs p.neighborState p.updateCount
  | none =>
    .default (some ("no neighbor with address " ++ req.remoteAddr ++
      " is configured"))

end Rest

namespace Bgp

/-- Modelled from the spec (§4.1): the states of the Peer Session FSM. -/
inductive FsmState where
  | idle | connect | active | openSent | openConfirm | established
deriving DecidableEq, Repr

/-- Modelled from the spec (§4.1, §5): events delivered to a Peer Session
FSM's event stream.  Timer expiries are first-class events in the stream
(§5), so "no message of any kind arrives within the negotiated hold
interval" is the `holdTimerExpiry` event. -/
inductive FsmEvent where
  | adminStart
  | adminStop
  | transportUp
  | transportError
  | msgOpen (valid : Bool) (holdTime : Nat)
  | msgKeepalive
  | msgUpdate (wellFormed : Bool)
  | msgNotification
  | msgRouteRefresh
  | holdTimerExpiry
  | keepaliveTimerTick
deriving DecidableEq, Repr

/-- Protocol messages a Peer Session FSM emits. -/
inductive OutMsg where
  | openMsg | keepalive | update | notification
deriving DecidableEq, Repr

/-- Modelled from the spec (§4.1): one transition of the Peer Session FSM,
returning the successor state and the protocol messages sent during the
transition. -/
def fsmStep : FsmState → FsmEvent → FsmState × List OutMsg
  | .idle, .adminStart => (.connect, [])
  | .connect, .transportUp => (.openSent, [.openMsg])
  | .active, .transportUp => (.openSent, [.openMsg])
  | .openSent, .msgOpen valid _ =>
    if valid then (.openConfirm, [.keepalive]) else (.idle, [.notification])
  | .openConfirm, .msgKeepalive => (.established, [])
  | .openConfirm, .holdTimerExpiry => (.idle, [.notification])
  | .established, .msgUpdate wellFormed =>
    if wellFormed then (.established, []) else (.idle, [.notification])
  | .established, .msgKeepalive => (.established, [])
  | .established, .msgRouteRefresh => (.established, [])
  | .established, .msgNotification => (.idle, [])
  | .established, .holdTimerExpiry => (.idle, [.notification])
  | .established, .keepaliveTimerTick => (.established, [.keepalive])
  | _, .transportError => (.idle, [])
  | _, .adminStop => (.idle, [])
  | s, _ => (s, [])

/-- Modelled from the spec (§3): a Route is a (prefix, path-attributes)
pair.  `nlri` is the prefix; the attribute fields are the ones the decision
process (§4.2) consults.  `origin` uses the spec's fixed total order
`IGP(0) < EGP(1) < Incomplete(2)`; `internal` is `0` for an
externally-learned route and `1` for an internally-learned one (rule 5
prefers external, i.e. the lower value); `routerId` is the originating
peer's router identifier; `neighborAS` is the neighboring AS the route was
learned from (rule 4's comparability condition). -/
structure Route where
  nlri : String
  localPref : Nat
  asPathLen : Nat
  origin : Nat
  med : Nat
  neighborAS : Nat
  internal : Nat
  igpCost : Nat
  routerId : Nat
deriving DecidableEq, Repr

/-- Modelled from the spec (§4.2): `better alwaysMed a b` decides whether
route `a` is preferred over route `b`, applying the seven criteria in
strict priority order until one discriminates:
1. highest local-preference; 2. shortest AS-path; 3. lowest origin code;
4. lowest MED, compared only when both routes come from the same
neighboring AS unless `alwaysMed` is set (the spec's explicit
configuration parameter, §9); 5. external over internal; 6. lowest IGP
cost to next hop; 7. lowest originating router identifier. -/
def better (alwaysMed : Bool) (a b : Route) : Bool :=
  if a.localPref = b.localPref then
    if a.asPathLen = b.asPathLen then
      if a.origin = b.origin then
        if (a.neighborAS = b.neighborAS ∨ alwaysMed = true) ∧
            ¬ a.med = b.med then
          decide (a.med < b.med)
        else
          if a.internal = b.internal then
            if a.igpCost = b.igpCost then
              decide (a.routerId < b.routerId)
            else decide (a.igpCost < b.igpCost)
          else decide (a.internal < b.internal)
      else decide (a.origin < b.origin)
    else decide (a.asPathLen < b.asPathLen)
  else decide (b.localPref < a.localPref)

/-- Fold of the decision process over a list of contributors, keeping the
current best and replacing it whenever a later contributor is strictly
preferred. -/
def selectBest (alwaysMed : Bool) (b : Route) : List Route → Route
  | [] => b
  | r :: rest =>
    selectBest alwaysMed (if better alwaysMed r b then r else b) rest

/-- Modelled from the spec (§4.2): the route the decision process selects
among the Adj-RIB-In contributors to one prefix (`none` when there is no
contributor). -/
def bestOf (alwaysMed : Bool) : List Route → Option Route
  | [] => none
  | r :: rest => some (selectBest alwaysMed r rest)

/-- Modelled from the spec (§3): one Adj-RIB-In entry — the most recently
received Route from one peer for the route's prefix. -/
structure Contribution where
  peer : Nat
  route : Route
deriving DecidableEq, Repr

/-- The Adj-RIB-In contributors to a prefix, across all peers. -/
def contributors (adjIn : List Contribution) (p : String) : List Route :=
  (adjIn.filter (fun c => c.route.nlri == p)).map (fun c => c.route)

/-- Modelled from the spec (§3): the RIB state a decision pass maintains —
the union of all peers' Adj-RIB-In entries, and Loc-RIB as a prefix-keyed
association list. -/
structure RibState where
  adjIn : List Contribution
  locRib : List (String × Route)
deriving DecidableEq, Repr

/-- Replace (or, with `none`, remove) the Loc-RIB entry for one prefix. -/
def setLoc (loc : List (String × Route)) (p : String) :
    Option Route → List (String × Route)
  | none => loc.filter (fun e => ! (e.1 == p))
  | some r => (p, r) :: loc.filter (fun e => ! (e.1 == p))

/-- Recompute the Loc-RIB entry of one prefix from the current Adj-RIB-In
contributors, per the spec (§4.2): the decision-process winner when a
contributor exists, no entry otherwise. -/
def recompute (alwaysMed : Bool) (s : RibState) (p : String) : RibState :=
  { s with locRib := setLoc s.locRib p (bestOf alwaysMed
      (contributors s.adjIn p)) }

/-- Modelled from the spec (§4.2): the RIB-affecting events — a route
announced by a peer, a route withdrawn by a peer, and session teardown
(implicit withdrawal of everything from that peer, §3). -/
inductive RibEvent where
  | announce (peer : Nat) (route : Route)
  | withdraw (peer : Nat) (nlri : String)
  | teardown (peer : Nat)
deriving DecidableEq, Repr

/-- Modelled from the spec (§3, §4.2): apply one RIB-affecting event —
update Adj-RIB-In (replace the peer's entry for the prefix on announce,
drop it on withdraw, drop all the peer's entries on teardown), then
recompute Loc-RIB for every affected prefix. -/
def applyEvent (alwaysMed : Bool) (s : RibState) : RibEvent → RibState
  | .announce peer r =>
    let adjIn := { peer := peer, route := r } ::
      s.adjIn.filter (fun c =>
        ! (c.peer == peer && c.route.nlri == r.nlri))
    recompute alwaysMed { s with adjIn := adjIn } r.nlri
  | .withdraw peer p =>
    let adjIn := s.adjIn.filter (fun c =>
      ! (c.peer == peer && c.route.nlri == p))
    recompute alwaysMed { s with adjIn := adjIn } p
  | .teardown peer =>
    let affected := (s.adjIn.filter (fun c => c.peer == peer)).map
      (fun c => c.route.nlri)
    let adjIn := s.adjIn.filter (fun c => ! (c.peer == peer))
    affected.foldl (fun st p => recompute alwaysMed st p)
      { s with adjIn := adjIn }

/-- The Loc-RIB coherence invariant (§3): every prefix with at least one
Adj-RIB-In contributor maps to the decision-process winner among its
current contributors, and a prefix with no contributor has no entry. -/
def Coherent (alwaysMed : Bool) (s : RibState) : Prop :=
  ∀ p, s.locRib.lookup p = bestOf alwaysMed (contributors s.adjIn p)

end Bgp

namespace Rest

/-- Whether a response is a `*RestResponseRib`. -/
def RestResponse.isRibResp : RestResponse → Bool
  | .rib _ _ _ _ => true
  | _ => false

/-- The spec's enumeration of request kinds (§6): "query single peer
state, query all peers, query Adj-RIB-In, query Adj-RIB-Out, query
Loc-RIB/best-only".  Written from the spec's words, to be compared with
the code's `REQ_*` constants. -/
inductive SpecRequestKind where
  | querySinglePeerState
  | queryAllPeers
  | queryAdjRibIn
  | queryAdjRibOut
  | queryLocRib
  | queryLocRibBestOnly
deriving DecidableEq, Repr

/-- All spec request kinds, in the spec's order. -/
def SpecRequestKind.all : List SpecRequestKind :=
  [.querySinglePeerState, .queryAllPeers, .queryAdjRibIn,
   .queryAdjRibOut, .queryLocRib, .queryLocRibBestOnly]

/-- The `REQ_*` constant implementing each spec request kind. -/
def SpecRequestKind.code : SpecRequestKind → Nat
  | .querySinglePeerState => REQ_NEIGHBOR
  | .queryAllPeers => REQ_NEIGHBORS
  | .queryAdjRibIn => REQ_ADJ_RIB_IN
  | .queryAdjRibOut => REQ_ADJ_RIB_OUT
  | .queryLocRib => REQ_ADJ_RIB_LOCAL
  | .queryLocRibBestOnly => REQ_ADJ_RIB_LOCAL_BEST

end Rest

namespace Bgp

theorem lookup_filter_key (loc : List (String × Route)) (p q : String)
    (h : q ≠ p) :
    (loc.filter (fun e => ! (e.1 == p))).lookup q = loc.lookup q := by
  have hqp : (q == p) = false := beq_eq_false_iff_ne.mpr h
  induction loc with
  | nil => rfl
  | cons e rest ih =>
    by_cases he : e.1 = p
    · simp [List.filter_cons, he, List.lookup, hqp, ih]
    · simp [List.filter_cons, he, List.lookup, ih]

theorem lookup_setLoc_self (loc : List (String × Route)) (p : String)
    (r : Option Route) : (setLoc loc p r).lookup p = r := by
  cases r with
  | none =>
    unfold setLoc
    induction loc with
    | nil => rfl
    | cons e rest ih =>
      by_cases he : e.1 = p
      · simp [List.filter_cons, he, ih]
      · have hpe : (p == e.1) = false := beq_eq_false_iff_ne.mpr (Ne.symm he)
        simp [List.filter_cons, he, List.lookup, hpe, ih]
  | some r => simp [setLoc, List.lookup]

theorem lookup_setLoc_ne (loc : List (String × Route)) (p q : String)
    (r : Option Route) (h : q ≠ p) :
    (setLoc loc p r).lookup q = loc.lookup q := by
  have hqp : (q == p) = false := beq_eq_false_iff_ne.mpr h
  cases r with
  | none => exact lookup_filter_key loc p q h
  | some r => simp [setLoc, List.lookup, hqp, lookup_filter_key loc p q h]

theorem contributors_cons_ne (c0 : Contribution) (l : List Contribution)
    (q : String) (h : c0.route.nlri ≠ q) :
    contributors (c0 :: l) q = contributors l q := by
  have hb : (c0.route.nlri == q) = false := beq_eq_false_iff_ne.mpr h
  simp [contributors, List.filter_cons, hb]

theorem contributors_filter (adjIn : List Contribution)
    (f : Contribution → Bool) (q : String)
    (hf : ∀ c ∈ adjIn, c.route.nlri = q → f c = true) :
    contributors (adjIn.filter f) q = contributors adjIn q := by
  unfold contributors
  rw [List.filter_filter]
  congr 1
  apply List.filter_congr
  intro c hc
  by_cases hq : c.route.nlri = q
  · simp [hq, hf c hc hq]
  · simp [beq_eq_false_iff_ne.mpr hq]

theorem better_true_iff (a b : Route) :
    better true a b = true ↔
      (b.localPref < a.localPref ∨ (a.localPref = b.localPref ∧
        (a.asPathLen < b.asPathLen ∨ (a.asPathLen = b.asPathLen ∧
        (a.origin < b.origin ∨ (a.origin = b.origin ∧
        (a.med < b.med ∨ (a.med = b.med ∧
        (a.internal < b.internal ∨ (a.internal = b.internal ∧
        (a.igpCost < b.igpCost ∨ (a.igpCost = b.igpCost ∧
        a.routerId < b.routerId)))))))))))) := by
  simp only [better, or_true, true_and]
  split_ifs <;> simp only [decide_eq_true_eq] <;> omega

theorem better_trans (a b c : Route) (h1 : better true a b = true)
    (h2 : better true b c = true) : better true a c = true := by
  rw [better_true_iff] at h1 h2 ⊢
  omega

theorem better_asymm (a b : Route) (h1 : better true a b = true)
    (h2 : better true b a = true) : False := by
  rw [better_true_iff] at h1 h2
  omega

theorem better_total (a b : Route) (h : a.routerId ≠ b.routerId) :
    better true a b = true ∨ better true b a = true := by
  rw [better_true_iff, better_true_iff]
  omega

theorem selectBest_mem (am : Bool) (b : Route) (l : List Route) :
    selectBest am b l ∈ b :: l := by
  induction l generalizing b with
  | nil => simp [selectBest]
  | cons r rest ih =>
    simp only [selectBest]
    cases hbr : better am r b with
    | true =>
      simp only [hbr, if_true]
      rcases List.mem_cons.mp (ih r) with h | h
      · rw [h]; exact List.mem_cons_of_mem _ (List.mem_cons_self _ _)
      · exact List.mem_cons_of_mem _ (List.mem_cons_of_mem _ h)
    | false =>
      simp only [hbr, Bool.false_eq_true, if_false]
      rcases List.mem_cons.mp (ih b) with h | h
      · rw [h]; exact List.mem_cons_self _ _
      · exact List.mem_cons_of_mem _ (List.mem_cons_of_mem _ h)

theorem selectBest_max (l : List Route) (b : Route)
    (hpw : (b :: l).Pairwise (fun x y => x.routerId ≠ y.routerId)) :
    ∀ x ∈ b :: l, x = selectBest true b l ∨
      better true (selectBest true b l) x = true := by
  induction l generalizing b with
  | nil =>
    intro x hx
    simp only [List.mem_singleton] at hx
    exact Or.inl (hx.trans rfl)
  | cons r rest ih =>
    intro x hx
    have hbr_id : b.routerId ≠ r.routerId :=
      (List.pairwise_cons.mp hpw).1 r (List.mem_cons_self _ _)
    have hrest : (r :: rest).Pairwise (fun x y => x.routerId ≠ y.routerId) :=
      (List.pairwise_cons.mp hpw).2
    cases hbr : better true r b with
    | true =>
      simp only [selectBest, hbr, if_true]
      have hspec := ih r hrest
      rcases List.mem_cons.mp hx with hxb | hxm
      · subst hxb
        rcases hspec r (List.mem_cons_self _ _) with he | hb
        · exact Or.inr (he ▸ hbr)
        · exact Or.inr (better_trans _ _ _ hb hbr)
      · exact hspec x hxm
    | false =>
      simp only [selectBest, hbr, Bool.false_eq_true, if_false]
      have hsub : (b :: rest).Sublist (b :: r :: rest) :=
        List.Sublist.cons₂ b (List.Sublist.cons r (List.Sublist.refl rest))
      have hpw2 : (b :: rest).Pairwise (fun x y => x.routerId ≠ y.routerId) :=
        hpw.sublist hsub
      have hspec := ih b hpw2
      rcases List.mem_cons.mp hx with hxb | hxm
      · subst hxb; exact hspec x (List.mem_cons_self _ _)
      · rcases List.mem_cons.mp hxm with hxr | hxrest
        · subst hxr
          have hbrx : better true b x = true := by
            rcases better_total b x (by exact hbr_id) with h | h
            · exact h
            · rw [h] at hbr; cases hbr
          rcases hspec b (List.mem_cons_self _ _) with he | hb
          · exact Or.inr (he ▸ hbrx)
          · exact Or.inr (better_trans _ _ _ hb hbrx)
        · exact hspec x (List.mem_cons_of_mem _ hxrest)

theorem maximal_unique (l : List Route) (r1 r2 : Route)
    (hm1 : r1 ∈ l) (hs1 : ∀ x ∈ l, x = r1 ∨ better true r1 x = true)
    (hm2 : r2 ∈ l) (hs2 : ∀ x ∈ l, x = r2 ∨ better true r2 x = true) :
    r1 = r2 := by
  rcases hs1 r2 hm2 with he | hb1
  · exact he.symm
  rcases hs2 r1 hm1 with he | hb2
  · exact he
  exact absurd hb2 (fun h2 => better_asymm r1 r2 hb1 h2)

theorem coherent_recompute (am : Bool) (s : RibState) (p : String)
    (h : ∀ q, q ≠ p → s.locRib.lookup q = bestOf am (contributors s.adjIn q)) :
    Coherent am (recompute am s p) := by
  intro q
  by_cases hq : q = p
  · subst hq
    simpa [recompute] using lookup_setLoc_self s.locRib q
      (bestOf am (contributors s.adjIn q))
  · simpa [recompute, lookup_setLoc_ne s.locRib p q _ hq] using h q hq

theorem coherent_foldl (am : Bool) (todo : List String) (s : RibState)
    (h : ∀ q, q ∉ todo → s.locRib.lookup q =
      bestOf am (contributors s.adjIn q)) :
    Coherent am (todo.foldl (fun st p => recompute am st p) s) := by
  induction todo generalizing s with
  | nil => intro q; exact h q (by simp)
  | cons p rest ih =>
    simp only [List.foldl_cons]
    apply ih
    intro q hq
    by_cases hqp : q = p
    · subst hqp
      simpa [recompute] using lookup_setLoc_self s.locRib q
        (bestOf am (contributors s.adjIn q))
    · rw [show (recompute am s p).adjIn = s.adjIn from rfl,
        show (recompute am s p).locRib = setLoc s.locRib p _ from rfl,
        lookup_setLoc_ne s.locRib p q _ hqp]
      exact h q (by simp [hqp, hq])

end Bgp

/-- C1: for every delivery of a management query to the `Neighbor`
handler whose response is a neighbor payload or carries an error (the
shapes the coordinator produces for a peer-state query), the handler runs
to completion, sends exactly one `RestRequest`, performs exactly one
receive — on the fresh response channel of that very request — and its
last observable action is an HTTP reply (serialized payload or error),
never a silent drop. -/
theorem c1_exactly_one_response (params : List (String × String))
    (resInf : Rest.RestResponse) (mi mp : Rest.RestResponse → Option String)
    (jf c : Nat)
    (h : resInf.isNeighborResp = true ∨ resInf.err ≠ none) :
    (Rest.Neighbor params resInf mi mp jf c).2 = true ∧
    ((Rest.Neighbor params resInf mi mp jf c).1.countP Rest.Event.isRecv) = 1 ∧
    ((Rest.Neighbor params resInf mi mp jf c).1.countP Rest.Event.isSend) = 1 ∧
    Rest.Event.send (Rest.NewRestRequest Rest.REQ_NEIGHBOR
      ((params.lookup Rest.PARAM_REMOTE_PEER_ADDR).getD "") c).1 ∈
      (Rest.Neighbor params resInf mi mp jf c).1 ∧
    Rest.Event.recv (Rest.NewRestRequest Rest.REQ_NEIGHBOR
      ((params.lookup Rest.PARAM_REMOTE_PEER_ADDR).getD "") c).1.chanId ∈
      (Rest.Neighbor params resInf mi mp jf c).1 ∧
    (∃ last, (Rest.Neighbor params resInf mi mp jf c).1.getLast? = some last ∧
      last.isHttpReply = true) := by
  have hcase : resInf.err = none → resInf.isNeighborResp = true := by
    intro he
    rcases h with h1 | h2
    · exact h1
    · exact absurd he h2
  cases hl : params.lookup Rest.PARAM_REMOTE_PEER_ADDR with
  | none =>
    cases hre : resInf.err with
    | some e =>
      simp [Rest.Neighbor, hl, hre, Rest.NewRestRequest, List.countP,
        List.countP.go, Rest.Event.isRecv, Rest.Event.isSend,
        Rest.Event.isHttpReply]
    | none =>
      have hn := hcase hre
      simp only [Rest.Neighbor, hl, hre, hn, if_true]
      cases hj : (if jf = Rest.JSON_FORMATTED then mi resInf
        else if jf = Rest.JSON_UN_FORMATTED then mp resInf else some "") <;>
      simp [hj, Rest.NewRestRequest, List.countP, List.countP.go,
        Rest.Event.isRecv, Rest.Event.isSend, Rest.Event.isHttpReply]
  | some a =>
    cases hre : resInf.err with
    | some e =>
      simp [Rest.Neighbor, hl, hre, Rest.NewRestRequest, List.countP,
        List.countP.go, Rest.Event.isRecv, Rest.Event.isSend,
        Rest.Event.isHttpReply]
    | none =>
      have hn := hcase hre
      simp only [Rest.Neighbor, hl, hre, hn, if_true]
      cases hj : (if jf = Rest.JSON_FORMATTED then mi resInf
        else if jf = Rest.JSON_UN_FORMATTED then mp resInf else some "") <;>
      simp [hj, Rest.NewRestRequest, List.countP, List.countP.go,
        Rest.Event.isRecv, Rest.Event.isSend, Rest.Event.isHttpReply]

/-- Witness for C1 at a concrete input. -/
theorem c1_witness :
    ((Rest.Neighbor [(Rest.PARAM_REMOTE_PEER_ADDR, "10.0.0.1")]
      (Rest.RestResponse.neighbor none "10.0.0.1" 65001 6 42)
      (fun _ => some "body") (fun _ => some "body")
      Rest.JsonFormat 0).1.countP Rest.Event.isRecv) = 1 :=
  (c1_exactly_one_response [(Rest.PARAM_REMOTE_PEER_ADDR, "10.0.0.1")]
    (Rest.RestResponse.neighbor none "10.0.0.1" 65001 6 42)
    (fun _ => some "body") (fun _ => some "body")
    Rest.JsonFormat 0 (Or.inl rfl)).2.1

/-- C2: a peer-state query whose peer-address key names no configured
Peer gets a response whose `Err()` is non-nil from the (spec-modelled)
coordinator, and the `Neighbor` handler then writes exactly that error to
the HTTP response and returns without writing a payload. -/
theorem c2_unknown_peer_not_found (peers : List Rest.PeerConf)
    (params : List (String × String)) (addr : String)
    (mi mp : Rest.RestResponse → Option String) (jf c : Nat)
    (hp : params.lookup Rest.PARAM_REMOTE_PEER_ADDR = some addr)
    (hu : ∀ p ∈ peers, p.remoteAddr ≠ addr) :
    ∃ e, (Rest.coordinatorRespond peers
        (Rest.NewRestRequest Rest.REQ_NEIGHBOR addr c).1).err = some e ∧
      Rest.Neighbor params (Rest.coordinatorRespond peers
        (Rest.NewRestRequest Rest.REQ_NEIGHBOR addr c).1) mi mp jf c =
      ([Rest.Event.send (Rest.NewRestRequest Rest.REQ_NEIGHBOR addr c).1,
        Rest.Event.recv c,
        Rest.Event.httpError e Rest.statusInternalServerError], true) := by
  have hfind : peers.find? (fun p => p.remoteAddr == addr) = none := by
    rw [List.find?_eq_none]
    intro p hpmem
    simpa using hu p hpmem
  refine ⟨"no neighbor with address " ++ addr ++ " is configured", ?_, ?_⟩
  · simp [Rest.coordinatorRespond, Rest.NewRestRequest, hfind,
      Rest.RestResponse.err]
  · simp [Rest.Neighbor, hp, Rest.coordinatorRespond, Rest.NewRestRequest,
      hfind, Rest.RestResponse.err]

/-- Witness for C2: the empty peer table has no peer for the queried
address. -/
theorem c2_witness :
    ∃ e, (Rest.coordinatorRespond []
        (Rest.NewRestRequest Rest.REQ_NEIGHBOR "10.0.0.9" 0).1).err = some e ∧
      Rest.Neighbor [(Rest.PARAM_REMOTE_PEER_ADDR, "10.0.0.9")]
        (Rest.coordinatorRespond []
          (Rest.NewRestRequest Rest.REQ_NEIGHBOR "10.0.0.9" 0).1)
        (fun _ => none) (fun _ => none) Rest.JsonFormat 0 =
      ([Rest.Event.send (Rest.NewRestRequest Rest.REQ_NEIGHBOR "10.0.0.9" 0).1,
        Rest.Event.recv 0,
        Rest.Event.httpError e Rest.statusInternalServerError], true) :=
  c2_unknown_peer_not_found [] [(Rest.PARAM_REMOTE_PEER_ADDR, "10.0.0.9")]
    "10.0.0.9" (fun _ => none) (fun _ => none) Rest.JsonFormat 0 rfl
    (by intro p hp; cases hp)

/-- C3: a gateway request carries a request kind ranging over exactly the
spec's six enumerated query kinds — realized by the code's `REQ_*`
constants, which are pairwise distinct and in bijection with the spec's
list — and its `RemoteAddr` field is the peer-address key passed when the
request is constructed. -/
theorem c3_request_kinds :
    Rest.SpecRequestKind.all.map Rest.SpecRequestKind.code =
      [Rest.REQ_NEIGHBOR, Rest.REQ_NEIGHBORS, Rest.REQ_ADJ_RIB_IN,
       Rest.REQ_ADJ_RIB_OUT, Rest.REQ_ADJ_RIB_LOCAL,
       Rest.REQ_ADJ_RIB_LOCAL_BEST] ∧
    (Rest.SpecRequestKind.all.map Rest.SpecRequestKind.code).Nodup ∧
    (∀ k : Rest.SpecRequestKind, k ∈ Rest.SpecRequestKind.all) ∧
    (∀ t a c, (Rest.NewRestRequest t a c).1.requestType = t ∧
      (Rest.NewRestRequest t a c).1.remoteAddr = a) := by
  refine ⟨by decide, by decide, ?_, ?_⟩
  · intro k; cases k <;> decide
  · intro t a c; exact ⟨rfl, rfl⟩

/-- C4 counterexample: `&RestResponseDefault{}` (a `RestResponseDefault`
with nil `ResponseErr`) is a concrete `RestResponse` value that is neither
a `RestResponseNeighbor` nor a `RestResponseRib` and whose `Err()` is nil,
so the claim's trichotomy fails on it. -/
theorem c4_response_counterexample :
    (Rest.RestResponse.default none).isNeighborResp = false ∧
    (Rest.RestResponse.default none).isRibResp = false ∧
    (Rest.RestResponse.default none).err = none := by
  exact ⟨rfl, rfl, rfl⟩

/-- C4 (amended): every concrete `RestResponse` value is a
`RestResponseNeighbor` with fields remote address / remote AS / FSM state /
update counter, a `RestResponseRib` with fields remote address / remote AS /
RIB info, or a `RestResponseDefault`, which carries nothing beyond a
possibly-nil error. -/
theorem c4_response_shapes (r : Rest.RestResponse) :
    (∃ e a as st uc, r = .neighbor e a as st uc) ∨
    (∃ e a as ri, r = .rib e a as ri) ∨
    (∃ e, r = .default e) := by
  cases r with
  | default e => exact Or.inr (Or.inr ⟨e, rfl⟩)
  | neighbor e a as st uc => exact Or.inl ⟨e, a, as, st, uc, rfl⟩
  | rib e a as ri => exact Or.inr (Or.inl ⟨e, a, as, ri, rfl⟩)

/-- C5 counterexample: with MED compared only between routes from the same
neighboring AS (the spec's §4.2 rule 4 default), the pairwise preference
relation has a cycle, and the decision process selects different winners
for two permutations of the same three Adj-RIB-In contributors. -/
theorem c5_order_counterexample :
    List.Perm
      [({ nlri := "10.0.0.0/24", localPref := 100, asPathLen := 1,
          origin := 0, med := 5, neighborAS := 10, internal := 0,
          igpCost := 0, routerId := 2 } : Bgp.Route),
       { nlri := "10.0.0.0/24", localPref := 100, asPathLen := 1,
         origin := 0, med := 10, neighborAS := 10, internal := 0,
         igpCost := 0, routerId := 0 },
       { nlri := "10.0.0.0/24", localPref := 100, asPathLen := 1,
         origin := 0, med := 0, neighborAS := 20, internal := 0,
         igpCost := 0, routerId := 1 }]
      [{ nlri := "10.0.0.0/24", localPref := 100, asPathLen := 1,
         origin := 0, med := 10, neighborAS := 10, internal := 0,
         igpCost := 0, routerId := 0 },
       { nlri := "10.0.0.0/24", localPref := 100, asPathLen := 1,
         origin := 0, med := 0, neighborAS := 20, internal := 0,
         igpCost := 0, routerId := 1 },
       { nlri := "10.0.0.0/24", localPref := 100, asPathLen := 1,
         origin := 0, med := 5, neighborAS := 10, internal := 0,
         igpCost := 0, routerId := 2 }] ∧
    Bgp.bestOf false
      [{ nlri := "10.0.0.0/24", localPref := 100, asPathLen := 1,
         origin := 0, med := 5, neighborAS := 10, internal := 0,
         igpCost := 0, routerId := 2 },
       { nlri := "10.0.0.0/24", localPref := 100, asPathLen := 1,
         origin := 0, med := 10, neighborAS := 10, internal := 0,
         igpCost := 0, routerId := 0 },
       { nlri := "10.0.0.0/24", localPref := 100, asPathLen := 1,
         origin := 0, med := 0, neighborAS := 20, internal := 0,
         igpCost := 0, routerId := 1 }] ≠
    Bgp.bestOf false
      [{ nlri := "10.0.0.0/24", localPref := 100, asPathLen := 1,
         origin := 0, med := 10, neighborAS := 10, internal := 0,
         igpCost := 0, routerId := 0 },
       { nlri := "10.0.0.0/24", localPref := 100, asPathLen := 1,
         origin := 0, med := 0, neighborAS := 20, internal := 0,
         igpCost := 0, routerId := 1 },
       { nlri := "10.0.0.0/24", localPref := 100, asPathLen := 1,
         origin := 0, med := 5, neighborAS := 10, internal := 0,
         igpCost := 0, routerId := 2 }] := by
  constructor
  · decide
  · decide

/-- C5 (amended): when MED is configured to be compared across all
neighboring ASes (the always-compare configuration the spec's §4.2 rule 4
and §9 name), the seven-criterion ranking is a strict total order on
contributors with pairwise-distinct originating router identifiers, and the
decision process selects the same winner for every arrival order of the
same Adj-RIB-In contributions. -/
theorem c5_deterministic_selection (l1 l2 : List Bgp.Route)
    (hpw : l1.Pairwise (fun x y => x.routerId ≠ y.routerId))
    (hp : l1.Perm l2) :
    Bgp.bestOf true l1 = Bgp.bestOf true l2 := by
  have hsymm : Symmetric (fun x y : Bgp.Route => x.routerId ≠ y.routerId) :=
    fun x y h => h.symm
  cases l1 with
  | nil =>
    rw [hp.nil_eq]
  | cons a t1 =>
    cases l2 with
    | nil => exact absurd hp.length_eq (by simp)
    | cons b t2 =>
      have hpw2 : (b :: t2).Pairwise
          (fun x y => x.routerId ≠ y.routerId) :=
        (hp.pairwise_iff @hsymm).mp hpw
      have hm1 := Bgp.selectBest_mem true a t1
      have hs1 := Bgp.selectBest_max t1 a hpw
      have hm2 := Bgp.selectBest_mem true b t2
      have hs2 := Bgp.selectBest_max t2 b hpw2
      have hmem : ∀ x, x ∈ a :: t1 ↔ x ∈ b :: t2 := fun x => hp.mem_iff
      have he : Bgp.selectBest true a t1 = Bgp.selectBest true b t2 :=
        Bgp.maximal_unique (a :: t1) _ _ hm1 hs1 ((hmem _).mpr hm2)
          (fun x hx => hs2 x ((hmem x).mp hx))
      simp [Bgp.bestOf, he]

/-- Witness for C5 (amended) at concrete inputs. -/
theorem c5_deterministic_selection_witness :
    Bgp.bestOf true
      [({ nlri := "10.0.0.0/24", localPref := 100, asPathLen := 2,
          origin := 0, med := 0, neighborAS := 10, internal := 0,
          igpCost := 0, routerId := 1 } : Bgp.Route),
       { nlri := "10.0.0.0/24", localPref := 200, asPathLen := 1,
         origin := 0, med := 0, neighborAS := 20, internal := 0,
         igpCost := 0, routerId := 2 }] =
    Bgp.bestOf true
      [{ nlri := "10.0.0.0/24", localPref := 200, asPathLen := 1,
         origin := 0, med := 0, neighborAS := 20, internal := 0,
         igpCost := 0, routerId := 2 },
       { nlri := "10.0.0.0/24", localPref := 100, asPathLen := 2,
         origin := 0, med := 0, neighborAS := 10, internal := 0,
         igpCost := 0, routerId := 1 }] :=
  c5_deterministic_selection _ _ (by decide) (by decide)

/-- C6: the Loc-RIB coherence invariant is preserved by every RIB-affecting
event (route announced, route withdrawn, session teardown): afterwards,
every prefix with at least one Adj-RIB-In contributor maps to the
decision-process winner among its current contributors, and every prefix
with no contributor has no Loc-RIB entry. -/
theorem c6_locrib_coherent (am : Bool) (s : Bgp.RibState) (e : Bgp.RibEvent)
    (h : Bgp.Coherent am s) : Bgp.Coherent am (Bgp.applyEvent am s e) := by
  cases e with
  | announce peer r =>
    apply Bgp.coherent_recompute
    intro q hq
    have h1 : Bgp.contributors
        (({ peer := peer, route := r } : Bgp.Contribution) ::
          s.adjIn.filter (fun c =>
            ! (c.peer == peer && c.route.nlri == r.nlri))) q =
        Bgp.contributors s.adjIn q := by
      rw [Bgp.contributors_cons_ne _ _ _ (fun hc => hq hc.symm)]
      apply Bgp.contributors_filter
      intro c hc hcq
      have : (c.route.nlri == r.nlri) = false :=
        beq_eq_false_iff_ne.mpr (by rw [hcq]; exact hq)
      simp [this]
    simpa only [h1] using h q
  | withdraw peer p =>
    apply Bgp.coherent_recompute
    intro q hq
    have h1 : Bgp.contributors
        (s.adjIn.filter (fun c =>
          ! (c.peer == peer && c.route.nlri == p))) q =
        Bgp.contributors s.adjIn q := by
      apply Bgp.contributors_filter
      intro c hc hcq
      have : (c.route.nlri == p) = false :=
        beq_eq_false_iff_ne.mpr (by rw [hcq]; exact hq)
      simp [this]
    simpa only [h1] using h q
  | teardown peer =>
    apply Bgp.coherent_foldl
    intro q hq
    have h1 : Bgp.contributors
        (s.adjIn.filter (fun c => ! (c.peer == peer))) q =
        Bgp.contributors s.adjIn q := by
      apply Bgp.contributors_filter
      intro c hc hcq
      by_cases hcp : c.peer = peer
      · exfalso
        apply hq
        simp only [List.mem_map, List.mem_filter]
        exact ⟨c, ⟨hc, by simp [hcp]⟩, hcq⟩
      · simp [beq_eq_false_iff_ne.mpr hcp]
    simpa only [h1] using h q

/-- Witness for C6: the empty RIB is coherent, and stays so after a
concrete announcement. -/
theorem c6_locrib_coherent_witness :
    Bgp.Coherent true (Bgp.applyEvent true ⟨[], []⟩
      (Bgp.RibEvent.announce 1
        { nlri := "10.0.0.0/24", localPref := 100, asPathLen := 2,
          origin := 0, med := 0, neighborAS := 64512, internal := 0,
          igpCost := 0, routerId := 1 })) :=
  c6_locrib_coherent true ⟨[], []⟩ _ (fun _ => rfl)

/-- C7: in state `Established`, the hold-timer-expiry event (no message of
any kind within the negotiated hold interval, delivered as a first-class
FSM event) moves the session to `Idle`, and the messages emitted during
that transition contain exactly one Notification. -/
theorem c7_hold_timer_safety :
    Bgp.fsmStep .established .holdTimerExpiry =
      (.idle, [Bgp.OutMsg.notification]) ∧
    ((Bgp.fsmStep .established .holdTimerExpiry).2.count
      Bgp.OutMsg.notification) = 1 := by
  exact ⟨rfl, rfl⟩

/-- C8: when the peer-address path parameter is absent, the `Neighbor`
handler writes an internal-server-error reply but does not return: it
still constructs a `RestRequest` with an empty remote address, sends it to
the BGP server channel, and performs the blocking receive on the response
channel. -/
theorem c8_missing_param (params : List (String × String))
    (resInf : Rest.RestResponse) (mi mp : Rest.RestResponse → Option String)
    (jf c : Nat) (h : params.lookup Rest.PARAM_REMOTE_PEER_ADDR = none) :
    ∃ tail, (Rest.Neighbor params resInf mi mp jf c).1 =
      Rest.Event.httpError "neighbor address is not specified"
        Rest.statusInternalServerError ::
      Rest.Event.send (Rest.NewRestRequest Rest.REQ_NEIGHBOR "" c).1 ::
      Rest.Event.recv c :: tail := by
  simp only [Rest.Neighbor, h, Option.getD_none]
  cases hre : resInf.err with
  | some e => simp [hre, Rest.NewRestRequest]
  | none =>
    simp only [hre]
    by_cases hn : resInf.isNeighborResp
    · simp only [hn, if_true]
      cases hj : (if jf = Rest.JSON_FORMATTED then mi resInf
        else if jf = Rest.JSON_UN_FORMATTED then mp resInf else some "") with
      | some j => simp [hj, Rest.NewRestRequest]
      | none => simp [hj, Rest.NewRestRequest]
    · simp [hn, Rest.NewRestRequest]

/-- Witness for C8 at a concrete input. -/
theorem c8_witness :
    ∃ tail, (Rest.Neighbor [] (Rest.RestResponse.default (some "boom"))
      (fun _ => none) (fun _ => none) Rest.JsonFormat 0).1 =
      Rest.Event.httpError "neighbor address is not specified"
        Rest.statusInternalServerError ::
      Rest.Event.send (Rest.NewRestRequest Rest.REQ_NEIGHBOR "" 0).1 ::
      Rest.Event.recv 0 :: tail :=
  c8_missing_param [] (Rest.RestResponse.default (some "boom"))
    (fun _ => none) (fun _ => none) Rest.JsonFormat 0 rfl

/-- C9: `NewRestRequest` builds a request whose `RequestType` and
`RemoteAddr` equal the arguments, whose `Err` field is nil, and whose
response channel is freshly allocated: its id is the allocator counter,
the counter advances, and requests allocated at different counter states
never share a channel. -/
theorem c9_new_request (t : Nat) (a : String) (c : Nat) :
    (Rest.NewRestRequest t a c).1.requestType = t ∧
    (Rest.NewRestRequest t a c).1.remoteAddr = a ∧
    (Rest.NewRestRequest t a c).1.err = none ∧
    (Rest.NewRestRequest t a c).1.chanId = c ∧
    (Rest.NewRestRequest t a c).2 = c + 1 ∧
    (∀ t2 a2 c2, (Rest.NewRestRequest t2 a2 c2).1.chanId =
      (Rest.NewRestRequest t a c).1.chanId → c2 = c) := by
  exact ⟨rfl, rfl, rfl, rfl, rfl, fun t2 a2 c2 h => h⟩

/-- Witness for C9 at a concrete input. -/
theorem c9_new_request_witness :
    (Rest.NewRestRequest Rest.REQ_NEIGHBOR "10.0.0.1" 0).1.chanId = 0 :=
  (c9_new_request Rest.REQ_NEIGHBOR "10.0.0.1" 0).2.2.2.1

/-- C10: any HTTP request whose method/URL matches no registered route is
dispatched to the installed `NotFoundHandler`, which answers with status
404 and the standard "Not Found" status text. -/
theorem c10_not_found (method path : String) (resInf : Rest.RestResponse)
    (mi mp : Rest.RestResponse → Option String) (jf c : Nat)
    (h : Rest.muxMatch method path = none) :
    Rest.serve method path resInf mi mp jf c =
      ([Rest.Event.httpError (Rest.statusText Rest.statusNotFound)
        Rest.statusNotFound], true) ∧
    Rest.statusText Rest.statusNotFound = "Not Found" ∧
    Rest.statusNotFound = 404 := by
  refine ⟨?_, rfl, rfl⟩
  unfold Rest.serve
  rw [h]
  rfl

/-- Witness for C10: `GET /nope` matches no route and yields the 404
reply. -/
theorem c10_not_found_witness :
    Rest.serve "GET" "/nope" (Rest.RestResponse.default none)
      (fun _ => none) (fun _ => none) Rest.JsonFormat 0 =
      ([Rest.Event.httpError (Rest.statusText Rest.statusNotFound)
        Rest.statusNotFound], true) :=
  (c10_not_found "GET" "/nope" (Rest.RestResponse.default none)
    (fun _ => none) (fun _ => none) Rest.JsonFormat 0 (by decide)).1
